import Mathlib

/-!
Shallow embedding of the multi-agent investment pipeline of the
sports-card repository: the trading strategy agent, the market research
agent with its circuit breaker and price cache, the player analysis
scoring, and the supervisor orchestration.  Numeric values are modelled
as exact rationals; Python `round(x, 2)` is modelled as round-half-even
on the exact value.
-/

namespace SportsCard

/-- Round to the nearest integer, ties to even (Python `round` / `"{:.0f}"`). -/
def roundHalfEven (x : ℚ) : ℤ :=
  if x - ⌊x⌋ < 1/2 then ⌊x⌋
  else if 1/2 < x - ⌊x⌋ then ⌊x⌋ + 1
  else if ⌊x⌋ % 2 = 0 then ⌊x⌋ else ⌊x⌋ + 1

/-- Python `round(x, 2)` on the exact rational value. -/
def round2 (x : ℚ) : ℚ := (roundHalfEven (x * 100) : ℚ) / 100

/-- Python `int(x)`: truncation toward zero. -/
def pyInt (q : ℚ) : ℤ := if q < 0 then -⌊-q⌋ else ⌊q⌋

example : roundHalfEven (1/2) = 0 := by norm_num [roundHalfEven]
example : roundHalfEven (3/2) = 2 := by norm_num [roundHalfEven]
example : roundHalfEven (5/8) = 1 := by norm_num [roundHalfEven]
example : round2 (1/200) = 0 := by norm_num [round2, roundHalfEven]
example : pyInt (-7/2) = -3 := by norm_num [pyInt]

/-! ## Trading Strategy Agent (src/agents/trading_strategy_agent.py) -/

/-- Input shape `market_analysis["market_analysis"]["sold_items"]`:
`average_price` entry, `none` when absent. -/
structure SoldItemsData where
  average_price : Option ℚ
deriving DecidableEq

/-- Input dict under the `market_analysis` key; `sold_items` is `none`
when the entry is absent or falsy. -/
structure MarketAnalysisData where
  sold_items : Option SoldItemsData
deriving DecidableEq

/-- The `market_analysis` argument of `generate_trading_strategy`;
`market_analysis` is `none` when the key is absent or the dict falsy. -/
structure MarketAnalysisInput where
  market_analysis : Option MarketAnalysisData
deriving DecidableEq

/-- Input shape `player_analysis["analysis"]["performance_score"]`. -/
structure PerformanceScoreData where
  overall_score : Option ℚ
deriving DecidableEq

/-- Input dict under the `analysis` key of a player analysis. -/
structure PlayerAnalysisData where
  performance_score : Option PerformanceScoreData
deriving DecidableEq

/-- The `player_analysis` argument of `generate_trading_strategy`. -/
structure PlayerAnalysisInput where
  analysis : Option PlayerAnalysisData
deriving DecidableEq

/-- `TradingStrategyAgent._get_player_score`: returns (score, is_estimated). -/
def get_player_score (p : PlayerAnalysisInput) : ℤ × Bool :=
  match p.analysis with
  | none => (50, true)
  | some pd =>
    match pd.performance_score with
    | none => (50, true)
    | some sd =>
      match sd.overall_score with
      | none => (50, true)
      | some s => (pyInt s, false)

/-- `TradingStrategyAgent._get_average_price`: returns (price, is_estimated). -/
def get_average_price (m : MarketAnalysisInput) : ℚ × Bool :=
  match m.market_analysis with
  | none => (0, true)
  | some md =>
    match md.sold_items with
    | none => (0, true)
    | some si =>
      match si.average_price with
      | none => (0, true)
      | some p => if p ≤ 0 then (0, true) else (p, false)

/-- Configuration of `TradingStrategyAgent.__init__`. -/
structure TradingStrategyAgent where
  buy_threshold : ℤ
  hold_threshold : ℤ
  entry_discount : ℚ
  target_multiplier : ℚ
  stop_loss_discount : ℚ
deriving DecidableEq

/-- The constructor defaults (85, 70, 0.95, 1.25, 0.85). -/
def defaultStrategyAgent : TradingStrategyAgent :=
  ⟨85, 70, 95/100, 125/100, 85/100⟩

/-- `TradingStrategyAgent._determine_signal`. -/
def determine_signal (a : TradingStrategyAgent) (player_score : ℤ) : String × ℚ :=
  if a.buy_threshold ≤ player_score then ("BUY", 80/100)
  else if a.hold_threshold ≤ player_score then ("HOLD", 65/100)
  else ("SELL", 70/100)

/-- The `risk_reward` dict: ratio label and assessment. -/
structure RiskReward where
  ratioLabel : String
  assessment : String
deriving DecidableEq

/-- `TradingStrategyAgent._calculate_risk_reward` (net effect per score band). -/
def calculate_risk_reward (player_score : ℤ) : RiskReward :=
  if 90 ≤ player_score then
    ⟨"3.0:1", "Favorable - Alto potencial de apreciación"⟩
  else if 80 ≤ player_score then
    ⟨"2.5:1", "Favorable - Buena relación riesgo/recompensa"⟩
  else if 70 ≤ player_score then
    ⟨"2.0:1", "Moderada - Considere otros factores"⟩
  else
    ⟨"1.5:1", "Desfavorable - Alto riesgo"⟩

/-- The `price_targets` dict of a generated strategy. -/
structure PriceTargets where
  entry_price : ℚ
  target_sell_price : ℚ
  stop_loss : ℚ
  average_price : ℚ
deriving DecidableEq

/-- The `strategy` dict of a successful response. -/
structure Strategy where
  signal : String
  confidence : ℚ
  price_targets : PriceTargets
  risk_reward : RiskReward
deriving DecidableEq

/-- The `data_quality` dict of a successful response. -/
structure DataQuality where
  player_score_estimated : Bool
  price_estimated : Bool
deriving DecidableEq

/-- Result dict of `generate_trading_strategy`: `strategy` is `none` and
`error` populated on the error path; `data_quality` present on success. -/
structure StrategyResponse where
  data_quality : Option DataQuality
  strategy : Option Strategy
  error : Option String
deriving DecidableEq

/-- `TradingStrategyAgent._create_error_response`. -/
def create_error_response (error : String) : StrategyResponse :=
  { data_quality := none, strategy := none, error := some error }

/-- Exceptions that the `try` body of `generate_trading_strategy` can raise. -/
inductive StrategyExc where
  | marketData (msg : String)
  | other (msg : String)
deriving DecidableEq

/-- Body of the `try` block of `generate_trading_strategy`: raises
`MarketDataError` when the average price is not positive. -/
def generate_trading_strategy_body (a : TradingStrategyAgent)
    (market : MarketAnalysisInput) (player : PlayerAnalysisInput)
    (player_name : String) : Except StrategyExc StrategyResponse :=
  let ps := get_player_score player
  let ap := get_average_price market
  if ap.1 ≤ 0 then
    .error (.marketData ("Unable to determine average price for " ++ player_name))
  else
    let sc := determine_signal a ps.1
    let entry_price := ap.1 * a.entry_discount
    let target_sell := ap.1 * a.target_multiplier
    let stop_loss := ap.1 * a.stop_loss_discount
    .ok
      { data_quality := some ⟨ps.2, ap.2⟩
        strategy := some
          { signal := sc.1
            confidence := sc.2
            price_targets :=
              { entry_price := round2 entry_price
                target_sell_price := round2 target_sell
                stop_loss := round2 stop_loss
                average_price := round2 ap.1 }
            risk_reward := calculate_risk_reward ps.1 }
        error := none }

/-- The `except` clauses of `generate_trading_strategy`: a `MarketDataError`
keeps its message, any other exception yields the generic message. -/
def handle_strategy_exc (e : StrategyExc) : StrategyResponse :=
  match e with
  | .marketData msg => create_error_response msg
  | .other _ => create_error_response "Error interno al generar estrategia"

/-- `TradingStrategyAgent.generate_trading_strategy`. -/
def generate_trading_strategy (a : TradingStrategyAgent)
    (market : MarketAnalysisInput) (player : PlayerAnalysisInput)
    (player_name : String) : StrategyResponse :=
  match generate_trading_strategy_body a market player player_name with
  | .ok r => r
  | .error e => handle_strategy_exc e

/-- Build a market-analysis input carrying a given average price. -/
def mkMarketInput (avg : ℚ) : MarketAnalysisInput :=
  ⟨some ⟨some ⟨some avg⟩⟩⟩

/-- Build a player-analysis input carrying a given overall score. -/
def mkPlayerInput (s : ℚ) : PlayerAnalysisInput :=
  ⟨some ⟨some ⟨some s⟩⟩⟩

example :
    (generate_trading_strategy defaultStrategyAgent (mkMarketInput 500)
        (mkPlayerInput 90) "X").strategy =
      some
        { signal := "BUY"
          confidence := 80/100
          price_targets :=
            { entry_price := 475, target_sell_price := 625
              stop_loss := 425, average_price := 500 }
          risk_reward := ⟨"3.0:1", "Favorable - Alto potencial de apreciación"⟩ } := by
  norm_num [generate_trading_strategy, generate_trading_strategy_body, mkMarketInput,
    mkPlayerInput, get_player_score, get_average_price, defaultStrategyAgent,
    determine_signal, calculate_risk_reward, pyInt, round2, roundHalfEven]

theorem pyInt_intCast (s : ℤ) : pyInt (s : ℚ) = s := by
  unfold pyInt
  split_ifs with h
  · rw [← Int.cast_neg, Int.floor_intCast]; ring
  · exact Int.floor_intCast s

theorem get_player_score_mk (s : ℤ) :
    get_player_score (mkPlayerInput (s : ℚ)) = (s, false) := by
  simp [get_player_score, mkPlayerInput, pyInt_intCast]

theorem get_average_price_mk {avg : ℚ} (h : 0 < avg) :
    get_average_price (mkMarketInput avg) = (avg, false) := by
  simp [get_average_price, mkMarketInput, not_le.2 h]

/-- **C1**: with avg price 500 and score 90, the generated strategy is BUY with
confidence 0.80, entry 475, target 625, stop-loss 425, risk/reward "3.0:1";
in general, for every score `s` and every positive average price, the signal
follows the 85/70 thresholds with confidences 0.80/0.65/0.70 and the price
targets are avg×0.95, avg×1.25, avg×0.85, each rounded to 2 decimals. -/
theorem c1_strategy_determinism :
    ((generate_trading_strategy defaultStrategyAgent (mkMarketInput 500)
        (mkPlayerInput 90) "X").strategy =
      some
        { signal := "BUY"
          confidence := 80/100
          price_targets :=
            { entry_price := 475, target_sell_price := 625
              stop_loss := 425, average_price := 500 }
          risk_reward := ⟨"3.0:1", "Favorable - Alto potencial de apreciación"⟩ }) ∧
    ∀ (s : ℤ) (avg : ℚ) (name : String), 0 < avg →
      ∃ st : Strategy,
        (generate_trading_strategy defaultStrategyAgent (mkMarketInput avg)
            (mkPlayerInput (s : ℚ)) name).strategy = some st ∧
        st.signal = (if 85 ≤ s then "BUY" else if 70 ≤ s then "HOLD" else "SELL") ∧
        st.confidence =
          (if 85 ≤ s then 80/100 else if 70 ≤ s then 65/100 else 70/100) ∧
        st.price_targets =
          { entry_price := round2 (avg * (95/100))
            target_sell_price := round2 (avg * (125/100))
            stop_loss := round2 (avg * (85/100))
            average_price := round2 avg } := by
  constructor
  · norm_num [generate_trading_strategy, generate_trading_strategy_body, mkMarketInput,
      mkPlayerInput, get_player_score, get_average_price, defaultStrategyAgent,
      determine_signal, calculate_risk_reward, pyInt, round2, roundHalfEven]
  · intro s avg name h
    unfold generate_trading_strategy generate_trading_strategy_body
    rw [get_player_score_mk, get_average_price_mk h]
    simp only [not_le.2 h, if_false]
    refine ⟨_, rfl, ?_, ?_, rfl⟩
    · simp [determine_signal, defaultStrategyAgent, apply_ite (Prod.fst (β := ℚ))]
    · simp [determine_signal, defaultStrategyAgent, apply_ite (Prod.snd (α := String))]

theorem c1_witness :
    ∃ st : Strategy,
      (generate_trading_strategy defaultStrategyAgent (mkMarketInput 500)
          (mkPlayerInput ((90 : ℤ) : ℚ)) "LeBron James").strategy = some st ∧
      st.signal = (if 85 ≤ (90:ℤ) then "BUY" else if 70 ≤ (90:ℤ) then "HOLD" else "SELL") ∧
      st.confidence =
        (if 85 ≤ (90:ℤ) then 80/100 else if 70 ≤ (90:ℤ) then 65/100 else 70/100) ∧
      st.price_targets =
        { entry_price := round2 (500 * (95/100))
          target_sell_price := round2 (500 * (125/100))
          stop_loss := round2 (500 * (85/100))
          average_price := round2 500 } :=
  c1_strategy_determinism.2 90 500 "LeBron James" (by norm_num)

/-- **C2**: whenever the extracted average price is ≤ 0 (zero, missing or
invalid), `generate_trading_strategy` returns `strategy = none` with the
populated `MarketDataError` message — never a strategy with zero targets. -/
theorem c2_zero_price_error (a : TradingStrategyAgent) (m : MarketAnalysisInput)
    (p : PlayerAnalysisInput) (name : String)
    (h : (get_average_price m).1 ≤ 0) :
    (generate_trading_strategy a m p name).strategy = none ∧
    (generate_trading_strategy a m p name).error =
      some ("Unable to determine average price for " ++ name) := by
  unfold generate_trading_strategy generate_trading_strategy_body
  rw [if_pos h]
  simp [handle_strategy_exc, create_error_response]

theorem c2_witness :
    (generate_trading_strategy defaultStrategyAgent (mkMarketInput 0)
        (mkPlayerInput 90) "Unknown").strategy = none ∧
    (generate_trading_strategy defaultStrategyAgent (mkMarketInput 0)
        (mkPlayerInput 90) "Unknown").error =
      some ("Unable to determine average price for " ++ "Unknown") :=
  c2_zero_price_error defaultStrategyAgent (mkMarketInput 0) (mkPlayerInput 90)
    "Unknown" (by norm_num [get_average_price, mkMarketInput])

theorem roundHalfEven_nonneg {x : ℚ} (h : 0 ≤ x) : 0 ≤ roundHalfEven x := by
  unfold roundHalfEven
  have hf : (0:ℤ) ≤ ⌊x⌋ := Int.floor_nonneg.2 h
  split_ifs <;> omega

theorem round2_nonneg {x : ℚ} (h : 0 ≤ x) : 0 ≤ round2 x := by
  unfold round2
  have : (0:ℚ) ≤ (roundHalfEven (x * 100) : ℚ) := by
    exact_mod_cast roundHalfEven_nonneg (by positivity)
  positivity

/-- **C10** (amended): `generate_trading_strategy` is total and returns
`strategy = none` exactly when the extracted average price is ≤ 0, in which
case `error` is populated (and any non-`MarketDataError` exception would map
to the generic message); when `strategy` is non-null the extracted average
price is positive and all rounded price targets are nonnegative (rounding can
floor sub-cent values to 0, so strict positivity does not hold). -/
theorem c10_boundary_totality (m : MarketAnalysisInput) (p : PlayerAnalysisInput)
    (name : String) :
    ((generate_trading_strategy defaultStrategyAgent m p name).strategy = none ↔
      (get_average_price m).1 ≤ 0) ∧
    ((generate_trading_strategy defaultStrategyAgent m p name).strategy = none →
      (generate_trading_strategy defaultStrategyAgent m p name).error.isSome) ∧
    (∀ st : Strategy,
      (generate_trading_strategy defaultStrategyAgent m p name).strategy = some st →
      (generate_trading_strategy defaultStrategyAgent m p name).error = none ∧
      0 < (get_average_price m).1 ∧
      0 ≤ st.price_targets.entry_price ∧
      0 ≤ st.price_targets.target_sell_price ∧
      0 ≤ st.price_targets.stop_loss ∧
      0 ≤ st.price_targets.average_price) ∧
    (∀ msg, handle_strategy_exc (.other msg) =
      create_error_response "Error interno al generar estrategia") := by
  by_cases h : (get_average_price m).1 ≤ 0
  · unfold generate_trading_strategy generate_trading_strategy_body
    rw [if_pos h]
    simp [handle_strategy_exc, create_error_response, h]
  · have hpos : 0 < (get_average_price m).1 := not_le.1 h
    unfold generate_trading_strategy generate_trading_strategy_body
    rw [if_neg h]
    refine ⟨by simp [h], by simp, ?_, fun msg => rfl⟩
    intro st hst
    simp only [Option.some.injEq] at hst
    refine ⟨rfl, hpos, ?_, ?_, ?_, ?_⟩ <;> rw [← hst]
    · exact round2_nonneg (mul_nonneg hpos.le (by norm_num [defaultStrategyAgent]))
    · exact round2_nonneg (mul_nonneg hpos.le (by norm_num [defaultStrategyAgent]))
    · exact round2_nonneg (mul_nonneg hpos.le (by norm_num [defaultStrategyAgent]))
    · exact round2_nonneg hpos.le

theorem c10_witness :
    ((generate_trading_strategy defaultStrategyAgent (mkMarketInput 0)
        (mkPlayerInput 90) "P").strategy = none ↔
      (get_average_price (mkMarketInput 0)).1 ≤ 0) ∧
    ((generate_trading_strategy defaultStrategyAgent (mkMarketInput 0)
        (mkPlayerInput 90) "P").strategy = none →
      (generate_trading_strategy defaultStrategyAgent (mkMarketInput 0)
        (mkPlayerInput 90) "P").error.isSome) ∧
    (∀ st : Strategy,
      (generate_trading_strategy defaultStrategyAgent (mkMarketInput 0)
          (mkPlayerInput 90) "P").strategy = some st →
      (generate_trading_strategy defaultStrategyAgent (mkMarketInput 0)
          (mkPlayerInput 90) "P").error = none ∧
      0 < (get_average_price (mkMarketInput 0)).1 ∧
      0 ≤ st.price_targets.entry_price ∧
      0 ≤ st.price_targets.target_sell_price ∧
      0 ≤ st.price_targets.stop_loss ∧
      0 ≤ st.price_targets.average_price) ∧
    (∀ msg, handle_strategy_exc (.other msg) =
      create_error_response "Error interno al generar estrategia") :=
  c10_boundary_totality (mkMarketInput 0) (mkPlayerInput 90) "P"

/-- **C10 counterexample**: with average price 0.005 the strategy is non-null
but its rounded entry, stop-loss and average price targets are 0, refuting
"entry_price, target_sell_price, stop_loss, average_price are all positive". -/
theorem c10_counterexample :
    (generate_trading_strategy defaultStrategyAgent (mkMarketInput (1/200))
        (mkPlayerInput 90) "P").strategy =
      some
        { signal := "BUY"
          confidence := 80/100
          price_targets :=
            { entry_price := 0, target_sell_price := 1/100
              stop_loss := 0, average_price := 0 }
          risk_reward := ⟨"3.0:1", "Favorable - Alto potencial de apreciación"⟩ } ∧
    ¬ (0 : ℚ) < 0 := by
  constructor
  · norm_num [generate_trading_strategy, generate_trading_strategy_body, mkMarketInput,
      mkPlayerInput, get_player_score, get_average_price, defaultStrategyAgent,
      determine_signal, calculate_risk_reward, pyInt, round2, roundHalfEven]
  · norm_num

/-! ## Market Research Agent (src/agents/market_research_agent.py) -/

/-- An eBay listing as consumed by `_process_listings` (only the `price` and
`sold` attributes are read). -/
structure EBayListing where
  price : ℚ
  sold : Bool
deriving DecidableEq

/-- The `sold_items` statistics dict of a market-analysis response. -/
structure SoldItemsStats where
  count : ℕ
  average_price : ℚ
  min_price : ℚ
  max_price : ℚ
deriving DecidableEq

/-- The `market_analysis` dict of a research response. -/
structure MarketAnalysisOut where
  sold_items : SoldItemsStats
  active_count : ℕ
  active_average_price : ℚ
  liquidity : String
  price_gap_percentage : ℚ
  market_insight : String
deriving DecidableEq

/-- A full research response dict.  `cached_at` is `none` on a freshly built
response and `some t` on the copy stored in the price cache by
`_cache_price` (which spreads the dict and adds the `cached_at` key). -/
structure ResearchResult where
  agent : String
  card : String
  from_cache : Bool
  error : Option String
  market_analysis : MarketAnalysisOut
  cached_at : Option ℚ
deriving DecidableEq

/-- Python `min` over a nonempty list (0 on the empty list, never used). -/
def pyMin (ps : List ℚ) : ℚ :=
  match ps with
  | [] => 0
  | p :: rest => rest.foldl min p

/-- Python `max` over a nonempty list (0 on the empty list, never used). -/
def pyMax (ps : List ℚ) : ℚ :=
  match ps with
  | [] => 0
  | p :: rest => rest.foldl max p

/-- `MarketResearchAgent._generate_market_insight`. -/
def generate_market_insight (listing_count : ℕ) (avg_price : ℚ)
    (liquidity : String) : String :=
  let insights : List String :=
    (if listing_count < 3 then ["Datos limitados - precaución al tomar decisiones."]
     else if 10 ≤ listing_count then ["Mercado activo con buena muestra de datos."]
     else []) ++
    (if liquidity = "Alta" then ["Alta liquidez - fácil encontrar compradores."]
     else if liquidity = "Baja" then ["Baja liquidez - puede haber dificultad para vender."]
     else []) ++
    (if 1000 < avg_price then ["Segmento premium."]
     else if 500 < avg_price then ["Segmento de precio medio-alto."]
     else if 100 < avg_price then ["Segmento de precio medio."]
     else ["Segmento económico."])
  String.intercalate " " insights

/-- `MarketResearchAgent._create_empty_response`. -/
def create_empty_response (search_query : String) : ResearchResult :=
  { agent := "Market Research Agent"
    card := search_query
    from_cache := false
    error := some "No sales data available"
    market_analysis :=
      { sold_items := ⟨0, 0, 0, 0⟩
        active_count := 0
        active_average_price := 0
        liquidity := "Desconocida"
        price_gap_percentage := 0
        market_insight := "No hay suficientes datos de ventas para analizar." }
    cached_at := none }

/-- `MarketResearchAgent._create_fallback_response`. -/
def create_fallback_response (search_query : String) (error : String) : ResearchResult :=
  { agent := "Market Research Agent"
    card := search_query
    from_cache := false
    error := some error
    market_analysis :=
      { sold_items := ⟨0, 0, 0, 0⟩
        active_count := 0
        active_average_price := 0
        liquidity := "Desconocida"
        price_gap_percentage := 0
        market_insight := "Error al obtener datos: " ++ error }
    cached_at := none }

/-- `MarketResearchAgent._process_listings`. -/
def process_listings (search_query : String) (listings : List EBayListing) :
    ResearchResult :=
  match (listings.filter (fun l => l.sold)).map (fun l => l.price) with
  | [] => create_empty_response search_query
  | p :: rest =>
    let sold_prices := p :: rest
    let avg_price := sold_prices.sum / sold_prices.length
    let min_price := pyMin sold_prices
    let max_price := pyMax sold_prices
    let liquidity :=
      if 10 ≤ sold_prices.length then "Alta"
      else if 5 ≤ sold_prices.length then "Media"
      else "Baja"
    let price_gap := ((max_price - min_price) / avg_price) * 100
    { agent := "Market Research Agent"
      card := search_query
      from_cache := false
      error := none
      market_analysis :=
        { sold_items :=
            ⟨sold_prices.length, round2 avg_price, round2 min_price, round2 max_price⟩
          active_count := 0
          active_average_price := 0
          liquidity := liquidity
          price_gap_percentage := round2 price_gap
          market_insight :=
            generate_market_insight sold_prices.length avg_price liquidity }
      cached_at := none }

theorem foldl_min_le_init (l : List ℚ) (a : ℚ) : l.foldl min a ≤ a := by
  induction l generalizing a with
  | nil => simp
  | cons x xs ih =>
    simpa using le_trans (ih (min a x)) (min_le_left a x)

theorem foldl_min_le_mem (l : List ℚ) (a x : ℚ) (hx : x ∈ l) : l.foldl min a ≤ x := by
  induction l generalizing a with
  | nil => simp at hx
  | cons y ys ih =>
    rcases List.mem_cons.1 hx with rfl | hmem
    · simpa using le_trans (foldl_min_le_init ys (min a x)) (min_le_right a x)
    · simpa using ih (min a y) hmem

theorem foldl_min_mem (l : List ℚ) (a : ℚ) : l.foldl min a = a ∨ l.foldl min a ∈ l := by
  induction l generalizing a with
  | nil => simp
  | cons x xs ih =>
    rcases ih (min a x) with h | h
    · rcases min_cases a x with ⟨he, _⟩ | ⟨he, _⟩
      · left; simpa [he] using h
      · right
        rw [List.foldl_cons, he]
        rw [he] at h
        rw [h]
        exact List.mem_cons_self x xs
    · right; exact List.mem_cons_of_mem x h

theorem init_le_foldl_max (l : List ℚ) (a : ℚ) : a ≤ l.foldl max a := by
  induction l generalizing a with
  | nil => simp
  | cons x xs ih =>
    simpa using le_trans (le_max_left a x) (ih (max a x))

theorem mem_le_foldl_max (l : List ℚ) (a x : ℚ) (hx : x ∈ l) : x ≤ l.foldl max a := by
  induction l generalizing a with
  | nil => simp at hx
  | cons y ys ih =>
    rcases List.mem_cons.1 hx with rfl | hmem
    · simpa using le_trans (le_max_right a x) (init_le_foldl_max ys (max a x))
    · simpa using ih (max a y) hmem

theorem foldl_max_mem (l : List ℚ) (a : ℚ) : l.foldl max a = a ∨ l.foldl max a ∈ l := by
  induction l generalizing a with
  | nil => simp
  | cons x xs ih =>
    rcases ih (max a x) with h | h
    · rcases max_cases a x with ⟨he, _⟩ | ⟨he, _⟩
      · left; simpa [he] using h
      · right
        rw [List.foldl_cons, he]
        rw [he] at h
        rw [h]
        exact List.mem_cons_self x xs
    · right; exact List.mem_cons_of_mem x h

theorem pyMin_mem {ps : List ℚ} (h : ps ≠ []) : pyMin ps ∈ ps := by
  match ps with
  | [] => exact absurd rfl h
  | p :: rest =>
    rcases foldl_min_mem rest p with he | hm
    · simp [pyMin, he]
    · exact List.mem_cons_of_mem p (by simpa [pyMin] using hm)

theorem pyMin_le {ps : List ℚ} (x : ℚ) (hx : x ∈ ps) : pyMin ps ≤ x := by
  match ps with
  | [] => simp at hx
  | p :: rest =>
    rcases List.mem_cons.1 hx with rfl | hmem
    · simpa [pyMin] using foldl_min_le_init rest x
    · simpa [pyMin] using foldl_min_le_mem rest p x hmem

theorem pyMax_mem {ps : List ℚ} (h : ps ≠ []) : pyMax ps ∈ ps := by
  match ps with
  | [] => exact absurd rfl h
  | p :: rest =>
    rcases foldl_max_mem rest p with he | hm
    · simp [pyMax, he]
    · exact List.mem_cons_of_mem p (by simpa [pyMax] using hm)

theorem pyMax_ge {ps : List ℚ} (x : ℚ) (hx : x ∈ ps) : x ≤ pyMax ps := by
  match ps with
  | [] => simp at hx
  | p :: rest =>
    rcases List.mem_cons.1 hx with rfl | hmem
    · simpa [pyMax] using init_le_foldl_max rest x
    · simpa [pyMax] using mem_le_foldl_max rest p x hmem

theorem filter_map_sold (ps : List ℚ) :
    ((ps.map fun p => (⟨p, true⟩ : EBayListing)).filter (fun l => l.sold)).map
        (fun l => l.price) = ps := by
  induction ps with
  | nil => rfl
  | cons p rest ih => simp [List.filter, ih]

/-- **C4** (amended): for a nonempty list of sold listings, the snapshot has
count N, average = round(mean, 2), min/max = round(min/max, 2) (the code
rounds min and max too), liquidity Alta iff N ≥ 10, Media iff 5 ≤ N < 10,
else Baja, and spread = round((max − min)/mean·100, 2); `pyMin`/`pyMax` are
characterized as the true minimum/maximum of the price list. -/
theorem c4_price_statistics (ps : List ℚ) (q : String) (h : ps ≠ []) :
    (process_listings q (ps.map fun p => ⟨p, true⟩)).market_analysis.sold_items.count
        = ps.length ∧
    (process_listings q (ps.map fun p => ⟨p, true⟩)).market_analysis.sold_items.average_price
        = round2 (ps.sum / ps.length) ∧
    (process_listings q (ps.map fun p => ⟨p, true⟩)).market_analysis.sold_items.min_price
        = round2 (pyMin ps) ∧
    (process_listings q (ps.map fun p => ⟨p, true⟩)).market_analysis.sold_items.max_price
        = round2 (pyMax ps) ∧
    ((process_listings q (ps.map fun p => ⟨p, true⟩)).market_analysis.liquidity = "Alta"
        ↔ 10 ≤ ps.length) ∧
    ((process_listings q (ps.map fun p => ⟨p, true⟩)).market_analysis.liquidity = "Media"
        ↔ 5 ≤ ps.length ∧ ps.length < 10) ∧
    ((process_listings q (ps.map fun p => ⟨p, true⟩)).market_analysis.liquidity = "Baja"
        ↔ ps.length < 5) ∧
    (process_listings q (ps.map fun p => ⟨p, true⟩)).market_analysis.price_gap_percentage
        = round2 ((pyMax ps - pyMin ps) / (ps.sum / ps.length) * 100) ∧
    (pyMin ps ∈ ps ∧ ∀ x ∈ ps, pyMin ps ≤ x) ∧
    (pyMax ps ∈ ps ∧ ∀ x ∈ ps, x ≤ pyMax ps) := by
  obtain ⟨p, rest, rfl⟩ : ∃ p rest, ps = p :: rest := by
    cases ps with
    | nil => exact absurd rfl h
    | cons p rest => exact ⟨p, rest, rfl⟩
  unfold process_listings
  rw [filter_map_sold]
  refine ⟨rfl, rfl, rfl, rfl, ?_, ?_, ?_, rfl, ⟨pyMin_mem h, fun x hx => pyMin_le x hx⟩,
    ⟨pyMax_mem h, fun x hx => pyMax_ge x hx⟩⟩ <;>
    dsimp only <;> split_ifs <;> simp_all <;> omega

theorem c4_witness :
    (process_listings "q" ([10, 20].map fun p => ⟨p, true⟩)).market_analysis.sold_items.count
        = ([10, 20] : List ℚ).length ∧
    (process_listings "q" ([10, 20].map fun p => ⟨p, true⟩)).market_analysis.sold_items.average_price
        = round2 (([10, 20] : List ℚ).sum / ([10, 20] : List ℚ).length) ∧
    (process_listings "q" ([10, 20].map fun p => ⟨p, true⟩)).market_analysis.sold_items.min_price
        = round2 (pyMin [10, 20]) ∧
    (process_listings "q" ([10, 20].map fun p => ⟨p, true⟩)).market_analysis.sold_items.max_price
        = round2 (pyMax [10, 20]) ∧
    ((process_listings "q" ([10, 20].map fun p => ⟨p, true⟩)).market_analysis.liquidity = "Alta"
        ↔ 10 ≤ ([10, 20] : List ℚ).length) ∧
    ((process_listings "q" ([10, 20].map fun p => ⟨p, true⟩)).market_analysis.liquidity = "Media"
        ↔ 5 ≤ ([10, 20] : List ℚ).length ∧ ([10, 20] : List ℚ).length < 10) ∧
    ((process_listings "q" ([10, 20].map fun p => ⟨p, true⟩)).market_analysis.liquidity = "Baja"
        ↔ ([10, 20] : List ℚ).length < 5) ∧
    (process_listings "q" ([10, 20].map fun p => ⟨p, true⟩)).market_analysis.price_gap_percentage
        = round2 ((pyMax [10, 20] - pyMin [10, 20]) /
            (([10, 20] : List ℚ).sum / ([10, 20] : List ℚ).length) * 100) ∧
    (pyMin [10, 20] ∈ ([10, 20] : List ℚ) ∧ ∀ x ∈ ([10, 20] : List ℚ), pyMin [10, 20] ≤ x) ∧
    (pyMax [10, 20] ∈ ([10, 20] : List ℚ) ∧ ∀ x ∈ ([10, 20] : List ℚ), x ≤ pyMax [10, 20]) :=
  c4_price_statistics [10, 20] "q" (List.cons_ne_nil 10 [20])

/-- **C4 counterexample**: for the single sold price 10.125 the code stores
`min_price = round(10.125, 2) = 10.12`, not `min(p) = 10.125` as the claim
states. -/
theorem c4_counterexample :
    (process_listings "q" [⟨81/8, true⟩]).market_analysis.sold_items.min_price = 253/25 ∧
    (253/25 : ℚ) ≠ 81/8 := by
  constructor
  · norm_num [process_listings, pyMin, pyMax, round2, roundHalfEven,
      generate_market_insight, List.filter]
  · norm_num

/-! ## Circuit breaker (class CircuitBreaker) -/

/-- The three breaker states: `"closed"`, `"open"`, `"half-open"`. -/
inductive BreakerPhase where
  | closed
  | opened
  | halfOpen
deriving DecidableEq

/-- The `CircuitBreaker` instance attributes.  Timestamps are rationals
(seconds); `last_failure` is `none` until a failure is recorded. -/
structure CircuitBreaker where
  failure_threshold : ℕ
  recovery_timeout : ℚ
  failure_count : ℕ
  last_failure : Option ℚ
  state : BreakerPhase
deriving DecidableEq

/-- `CircuitBreaker.__init__`. -/
def breakerInit (failure_threshold : ℕ) (recovery_timeout : ℚ) : CircuitBreaker :=
  ⟨failure_threshold, recovery_timeout, 0, none, .closed⟩

/-- `CircuitBreaker.__aenter__` at time `now`: while open, either raises the
"temporarily unavailable" error (`Except.error` with the formatted message)
or, once the recovery timeout has elapsed, transitions to half-open. -/
def aenter (now : ℚ) (b : CircuitBreaker) : Except String CircuitBreaker :=
  if b.state = .opened then
    match b.last_failure with
    | some lf =>
      if b.recovery_timeout < now - lf then
        .ok { b with state := .halfOpen }
      else
        .error ("Circuit breaker is open. Retry after " ++
          toString (roundHalfEven (b.recovery_timeout - (now - lf))) ++ "s")
    | none => .ok b
  else .ok b

/-- `CircuitBreaker.__aexit__` at time `now`: on failure, increments the
counter, records the failure time, and opens at the threshold; on success,
resets the counter and closes a half-open breaker. -/
def aexit (now : ℚ) (failed : Bool) (b : CircuitBreaker) : CircuitBreaker :=
  if failed then
    let b1 := { b with failure_count := b.failure_count + 1, last_failure := some now }
    if b1.failure_threshold ≤ b1.failure_count then { b1 with state := .opened } else b1
  else
    let b1 := { b with failure_count := 0 }
    if b1.state = .halfOpen then { b1 with state := .closed } else b1

/-- Outcome of one wrapped call: rejected by the open breaker (wrapped call
not invoked), ran and succeeded, or ran and raised. -/
inductive CallOutcome where
  | rejected (msg : String)
  | ranOk
  | ranFailed
deriving DecidableEq

/-- One `async with breaker:` protected call at time `now`; `fails` tells
whether the wrapped body raises.  When `__aenter__` raises, `__aexit__` does
not run and the breaker is left untouched. -/
def cbCall (now : ℚ) (fails : Bool) (b : CircuitBreaker) : CircuitBreaker × CallOutcome :=
  match aenter now b with
  | .error msg => (b, .rejected msg)
  | .ok b1 => (aexit now fails b1, if fails then .ranFailed else .ranOk)

/-- A run of consecutive failing wrapped calls at the given times. -/
def cbFailRun (ts : List ℚ) (b : CircuitBreaker) : CircuitBreaker :=
  ts.foldl (fun b t => (cbCall t true b).1) b

theorem cbCall_closed_fail (now : ℚ) (b : CircuitBreaker) (hs : b.state = .closed) :
    (cbCall now true b).1 =
      (if b.failure_threshold ≤ b.failure_count + 1 then
        { b with failure_count := b.failure_count + 1, last_failure := some now,
                 state := .opened }
      else
        { b with failure_count := b.failure_count + 1, last_failure := some now }) := by
  unfold cbCall aenter aexit
  rw [hs]
  split_ifs <;> simp_all

theorem cbFailRun_below_threshold (ts : List ℚ) :
    ∀ b : CircuitBreaker, b.state = .closed →
    b.failure_count + ts.length < b.failure_threshold →
    (cbFailRun ts b).state = .closed ∧
    (cbFailRun ts b).failure_count = b.failure_count + ts.length ∧
    (cbFailRun ts b).failure_threshold = b.failure_threshold ∧
    (cbFailRun ts b).recovery_timeout = b.recovery_timeout := by
  induction ts with
  | nil => intro b hs _; exact ⟨hs, rfl, rfl, rfl⟩
  | cons t ts ih =>
    intro b hs h
    simp only [List.length_cons] at h
    have hlt : ¬ b.failure_threshold ≤ b.failure_count + 1 := by omega
    have hstep : (cbCall t true b).1 =
        { b with failure_count := b.failure_count + 1, last_failure := some t } := by
      rw [cbCall_closed_fail t b hs, if_neg hlt]
    have hrec := ih { b with failure_count := b.failure_count + 1, last_failure := some t }
      hs (by show b.failure_count + 1 + ts.length < b.failure_threshold; omega)
    simp only [cbFailRun, List.foldl_cons] at hrec ⊢
    rw [hstep]
    refine ⟨hrec.1, ?_, hrec.2.2.1, hrec.2.2.2⟩
    rw [hrec.2.1]
    show b.failure_count + 1 + ts.length = b.failure_count + (t :: ts).length
    simp only [List.length_cons]
    omega

theorem cbFailRun_reaches_threshold (ts : List ℚ) (t : ℚ) (b : CircuitBreaker)
    (hs : b.state = .closed)
    (h : b.failure_count + ts.length + 1 = b.failure_threshold) :
    (cbFailRun (ts ++ [t]) b).state = .opened ∧
    (cbFailRun (ts ++ [t]) b).failure_count = b.failure_threshold ∧
    (cbFailRun (ts ++ [t]) b).last_failure = some t ∧
    (cbFailRun (ts ++ [t]) b).failure_threshold = b.failure_threshold ∧
    (cbFailRun (ts ++ [t]) b).recovery_timeout = b.recovery_timeout := by
  have hbelow := cbFailRun_below_threshold ts b hs (by omega)
  have hsplit : cbFailRun (ts ++ [t]) b = (cbCall t true (cbFailRun ts b)).1 := by
    simp [cbFailRun]
  rw [hsplit, cbCall_closed_fail t _ hbelow.1]
  rw [if_pos (by rw [hbelow.2.2.1, hbelow.2.1]; omega)]
  refine ⟨rfl, ?_, rfl, hbelow.2.2.1, hbelow.2.2.2⟩
  show (cbFailRun ts b).failure_count + 1 = b.failure_threshold
  rw [hbelow.2.1]
  omega

/-- **C3**: starting closed, after exactly `failure_threshold` consecutive
failing wrapped calls the breaker is open (fewer leave it closed); a call
while open before `recovery_timeout` has elapsed is rejected without invoking
the wrapped call or touching any breaker state; after the timeout the
breaker half-opens, a successful probe closes it with the counter reset to 0,
and a failing probe reopens it with the cooldown restarted. -/
theorem c3_circuit_breaker :
    (∀ (thr : ℕ) (rt : ℚ) (ts : List ℚ) (t : ℚ), ts.length + 1 = thr →
      (cbFailRun (ts ++ [t]) (breakerInit thr rt)).state = .opened ∧
      (cbFailRun (ts ++ [t]) (breakerInit thr rt)).last_failure = some t) ∧
    (∀ (thr : ℕ) (rt : ℚ) (ts : List ℚ), ts.length < thr →
      (cbFailRun ts (breakerInit thr rt)).state = .closed) ∧
    (∀ (b : CircuitBreaker) (now lf : ℚ) (fails : Bool), b.state = .opened →
      b.last_failure = some lf → now - lf < b.recovery_timeout →
      (cbCall now fails b).1 = b ∧ ∃ msg, (cbCall now fails b).2 = .rejected msg) ∧
    (∀ (b : CircuitBreaker) (now lf : ℚ), b.state = .opened →
      b.last_failure = some lf → b.recovery_timeout < now - lf →
      aenter now b = .ok { b with state := .halfOpen }) ∧
    (∀ (b : CircuitBreaker) (now lf : ℚ), b.state = .opened →
      b.last_failure = some lf → b.recovery_timeout < now - lf →
      (cbCall now false b).1.state = .closed ∧
      (cbCall now false b).1.failure_count = 0 ∧
      (cbCall now false b).2 = .ranOk) ∧
    (∀ (b : CircuitBreaker) (now lf : ℚ), b.state = .opened →
      b.last_failure = some lf → b.recovery_timeout < now - lf →
      b.failure_threshold ≤ b.failure_count + 1 →
      (cbCall now true b).1.state = .opened ∧
      (cbCall now true b).1.last_failure = some now) := by
  refine ⟨?_, ?_, ?_, ?_, ?_, ?_⟩
  · intro thr rt ts t hlen
    have := cbFailRun_reaches_threshold ts t (breakerInit thr rt) rfl
      (by simpa [breakerInit] using hlen)
    exact ⟨this.1, this.2.2.1⟩
  · intro thr rt ts hlen
    exact (cbFailRun_below_threshold ts (breakerInit thr rt) rfl
      (by simpa [breakerInit] using hlen)).1
  · intro b now lf fails hs hlf hlt
    have hnot : ¬ b.recovery_timeout < now - lf := not_lt.2 hlt.le
    constructor
    · simp [cbCall, aenter, hs, hlf, hnot]
    · refine ⟨"Circuit breaker is open. Retry after " ++
        toString (roundHalfEven (b.recovery_timeout - (now - lf))) ++ "s", ?_⟩
      simp [cbCall, aenter, hs, hlf, hnot]
  · intro b now lf hs hlf hgt
    simp [aenter, hs, hlf, hgt]
  · intro b now lf hs hlf hgt
    refine ⟨?_, ?_, ?_⟩ <;> simp [cbCall, aenter, aexit, hs, hlf, hgt]
  · intro b now lf hs hlf hgt hthr
    constructor <;> simp [cbCall, aenter, aexit, hs, hlf, hgt, hthr]

theorem c3_witness :
    ((cbFailRun ([0, 1, 2, 3] ++ [4]) (breakerInit 5 60)).state = .opened ∧
      (cbFailRun ([0, 1, 2, 3] ++ [4]) (breakerInit 5 60)).last_failure = some 4) ∧
    ((cbFailRun [0, 1, 2, 3] (breakerInit 5 60)).state = .closed) ∧
    ((cbCall 10 true ⟨5, 60, 5, some 4, .opened⟩).1 = ⟨5, 60, 5, some 4, .opened⟩ ∧
      ∃ msg, (cbCall 10 true ⟨5, 60, 5, some 4, .opened⟩).2 = .rejected msg) ∧
    (aenter 100 ⟨5, 60, 5, some 4, .opened⟩ = .ok ⟨5, 60, 5, some 4, .halfOpen⟩) ∧
    ((cbCall 100 false ⟨5, 60, 5, some 4, .opened⟩).1.state = .closed ∧
      (cbCall 100 false ⟨5, 60, 5, some 4, .opened⟩).1.failure_count = 0 ∧
      (cbCall 100 false ⟨5, 60, 5, some 4, .opened⟩).2 = .ranOk) ∧
    ((cbCall 100 true ⟨5, 60, 5, some 4, .opened⟩).1.state = .opened ∧
      (cbCall 100 true ⟨5, 60, 5, some 4, .opened⟩).1.last_failure = some 100) :=
  ⟨c3_circuit_breaker.1 5 60 [0, 1, 2, 3] 4 (by simp),
   c3_circuit_breaker.2.1 5 60 [0, 1, 2, 3] (by simp),
   c3_circuit_breaker.2.2.1 ⟨5, 60, 5, some 4, .opened⟩ 10 4 true rfl rfl (by norm_num),
   c3_circuit_breaker.2.2.2.1 ⟨5, 60, 5, some 4, .opened⟩ 100 4 rfl rfl (by norm_num),
   c3_circuit_breaker.2.2.2.2.1 ⟨5, 60, 5, some 4, .opened⟩ 100 4 rfl rfl (by norm_num),
   c3_circuit_breaker.2.2.2.2.2 ⟨5, 60, 5, some 4, .opened⟩ 100 4 rfl rfl (by norm_num)
     (by norm_num)⟩

/-! ## `research_card_market`: cache + breaker + fallback policy -/

/-- Outcome of the external `ebay_tool.search_cards` call: a listings result,
an `EBayRateLimitError`, or any other exception. -/
inductive FetchOutcome where
  | ok (listings : List EBayListing)
  | rateLimit (msg : String)
  | exc (msg : String)
deriving DecidableEq

/-- Per-instance state of `MarketResearchAgent`: the price cache (a dict
keyed by the search query), the circuit breaker, and the cache TTL. -/
structure MarketAgentState where
  price_cache : List (String × ResearchResult)
  circuit_breaker : CircuitBreaker
  cache_ttl_seconds : ℚ
deriving DecidableEq

/-- `MarketResearchAgent.__init__`: empty cache, breaker (5, 60), TTL 900 s. -/
def initialMarketAgentState : MarketAgentState :=
  ⟨[], breakerInit 5 60, 900⟩

/-- Dict assignment `cache[query] = value`. -/
def assocSet (q : String) (v : ResearchResult)
    (c : List (String × ResearchResult)) : List (String × ResearchResult) :=
  (q, v) :: c.filter (fun e => !(e.1 == q))

/-- `MarketResearchAgent._get_cached_price` at time `now`: a hit returns the
stored entry with its `from_cache` flag set. -/
def get_cached_price (now : ℚ) (st : MarketAgentState) (search_query : String) :
    Option ResearchResult :=
  match st.price_cache.lookup search_query with
  | some cached =>
    match cached.cached_at with
    | some t =>
      if now - t < st.cache_ttl_seconds then
        some { cached with from_cache := true }
      else none
    | none => none
  | none => none

/-- `MarketResearchAgent._cache_price`: stores `{**data, "cached_at": now}`. -/
def cache_price (search_query : String) (data : ResearchResult) (now : ℚ)
    (st : MarketAgentState) : MarketAgentState :=
  { st with price_cache :=
      assocSet search_query { data with cached_at := some now } st.price_cache }

/-- The query string `f"{player_name} {year} {manufacturer}"`. -/
def buildSearchQuery (player_name : String) (year : ℤ) (manufacturer : String) :
    String :=
  player_name ++ " " ++ toString year ++ " " ++ manufacturer

/-- Result of one `research_card_market` call: the returned dict, the updated
agent state, and whether the external search client was invoked. -/
structure ResearchOut where
  result : ResearchResult
  state : MarketAgentState
  fetched : Bool
deriving DecidableEq

/-- The body of `research_card_market` after the cache check: the breaker-
protected fetch, the exception handlers, result processing and caching. -/
def research_fetch (st : MarketAgentState) (now : ℚ) (search_query : String)
    (use_cache : Bool) (fetch : FetchOutcome) : ResearchOut :=
  match aenter now st.circuit_breaker with
  | .error msg => ⟨create_fallback_response search_query msg, st, false⟩
  | .ok b1 =>
    match fetch with
    | .rateLimit _ =>
      ⟨create_fallback_response search_query
          "Rate limit exceeded. Please try again later.",
        { st with circuit_breaker := aexit now true b1 }, true⟩
    | .exc msg =>
      ⟨create_fallback_response search_query msg,
        { st with circuit_breaker := aexit now true b1 }, true⟩
    | .ok listings =>
      let result := process_listings search_query listings
      let st1 := { st with circuit_breaker := aexit now false b1 }
      let st2 := if use_cache then cache_price search_query result now st1 else st1
      ⟨result, st2, true⟩

/-- `MarketResearchAgent.research_card_market`: cache check first, then the
breaker-protected fetch.  A cache hit also writes the flag-updated entry back
(the Python code mutates the stored dict in place). -/
def research_card_market (st : MarketAgentState) (now : ℚ) (player_name : String)
    (year : ℤ) (manufacturer : String) (use_cache : Bool) (fetch : FetchOutcome) :
    ResearchOut :=
  let search_query := buildSearchQuery player_name year manufacturer
  if use_cache then
    match get_cached_price now st search_query with
    | some cached =>
      ⟨cached, { st with price_cache := assocSet search_query cached st.price_cache },
        false⟩
    | none => research_fetch st now search_query use_cache fetch
  else research_fetch st now search_query use_cache fetch

theorem assocSet_lookup (q : String) (v : ResearchResult)
    (c : List (String × ResearchResult)) : (assocSet q v c).lookup q = some v := by
  simp [assocSet, List.lookup]

theorem aenter_not_opened {b : CircuitBreaker} (h : b.state ≠ .opened) (now : ℚ) :
    aenter now b = .ok b := by
  simp [aenter, h]

theorem research_card_market_miss (st : MarketAgentState) (now : ℚ)
    (player : String) (year : ℤ) (manufacturer : String) (ls : List EBayListing)
    (hmiss : get_cached_price now st (buildSearchQuery player year manufacturer) = none)
    (hb : st.circuit_breaker.state ≠ .opened) :
    research_card_market st now player year manufacturer true (.ok ls) =
      ⟨process_listings (buildSearchQuery player year manufacturer) ls,
        { st with
            circuit_breaker := aexit now false st.circuit_breaker
            price_cache :=
              assocSet (buildSearchQuery player year manufacturer)
                { process_listings (buildSearchQuery player year manufacturer) ls with
                    cached_at := some now }
                st.price_cache },
        true⟩ := by
  simp only [research_card_market, if_true]
  rw [hmiss]
  simp only [research_fetch, aenter_not_opened hb, cache_price, if_true]

theorem research_card_market_hit (st : MarketAgentState) (now : ℚ)
    (player : String) (year : ℤ) (manufacturer : String) (fetch : FetchOutcome)
    (r : ResearchResult)
    (hhit : get_cached_price now st (buildSearchQuery player year manufacturer) = some r) :
    research_card_market st now player year manufacturer true fetch =
      ⟨r,
        { st with
            price_cache :=
              assocSet (buildSearchQuery player year manufacturer) r st.price_cache },
        false⟩ := by
  simp only [research_card_market, if_true]
  rw [hhit]

/-- **C5** (amended): with `use_cache` and a cold cache, the first call
fetches (one external call) and the second call within the TTL does not
fetch; the second result is the first result with `from_cache` set to true
and an added `cached_at` timestamp field (so it is not value-identical
modulo the flag alone). -/
theorem c5_cache_idempotence (st0 : MarketAgentState) (t1 t2 : ℚ)
    (player : String) (year : ℤ) (manufacturer : String)
    (listings : List EBayListing) (fetch2 : FetchOutcome)
    (hmiss : get_cached_price t1 st0 (buildSearchQuery player year manufacturer) = none)
    (hb : st0.circuit_breaker.state ≠ .opened)
    (httl : t2 - t1 < st0.cache_ttl_seconds) :
    (research_card_market st0 t1 player year manufacturer true (.ok listings)).fetched
        = true ∧
    (research_card_market
        (research_card_market st0 t1 player year manufacturer true (.ok listings)).state
        t2 player year manufacturer true fetch2).fetched = false ∧
    (research_card_market
        (research_card_market st0 t1 player year manufacturer true (.ok listings)).state
        t2 player year manufacturer true fetch2).result =
      { (research_card_market st0 t1 player year manufacturer true (.ok listings)).result
          with from_cache := true, cached_at := some t1 } := by
  have h1 := research_card_market_miss st0 t1 player year manufacturer listings hmiss hb
  have hlook :
      get_cached_price t2
        (research_card_market st0 t1 player year manufacturer true (.ok listings)).state
        (buildSearchQuery player year manufacturer) =
      some { process_listings (buildSearchQuery player year manufacturer) listings with
              from_cache := true, cached_at := some t1 } := by
    rw [h1]
    simp only [get_cached_price, assocSet_lookup]
    rw [if_pos httl]
  have h2 := research_card_market_hit
    (research_card_market st0 t1 player year manufacturer true (.ok listings)).state
    t2 player year manufacturer fetch2 _ hlook
  refine ⟨by rw [h1], by rw [h2], ?_⟩
  rw [h2, h1]

theorem c5_witness :
    (research_card_market initialMarketAgentState 0 "LeBron James" 2003 "Topps" true
        (.ok [⟨500, true⟩])).fetched = true ∧
    (research_card_market
        (research_card_market initialMarketAgentState 0 "LeBron James" 2003 "Topps" true
          (.ok [⟨500, true⟩])).state
        10 "LeBron James" 2003 "Topps" true (.ok [])).fetched = false ∧
    (research_card_market
        (research_card_market initialMarketAgentState 0 "LeBron James" 2003 "Topps" true
          (.ok [⟨500, true⟩])).state
        10 "LeBron James" 2003 "Topps" true (.ok [])).result =
      { (research_card_market initialMarketAgentState 0 "LeBron James" 2003 "Topps" true
          (.ok [⟨500, true⟩])).result with from_cache := true, cached_at := some 0 } :=
  c5_cache_idempotence initialMarketAgentState 0 10 "LeBron James" 2003 "Topps"
    [⟨500, true⟩] (.ok []) rfl (by decide) (by norm_num [initialMarketAgentState])

/-- **C5 counterexample**: the second (cached) result is not value-identical
to the first result modulo `from_cache` alone — it also carries the
`cached_at` key added by `_cache_price` (`some 0` here versus `none`). -/
theorem c5_counterexample :
    (research_card_market
        (research_card_market initialMarketAgentState 0 "LeBron James" 2003 "Topps" true
          (.ok [⟨500, true⟩])).state
        10 "LeBron James" 2003 "Topps" true (.ok [])).result ≠
      { (research_card_market initialMarketAgentState 0 "LeBron James" 2003 "Topps" true
          (.ok [⟨500, true⟩])).result with from_cache := true } := by
  have h1 := research_card_market_miss initialMarketAgentState 0 "LeBron James" 2003
    "Topps" [⟨500, true⟩] rfl (by decide)
  have hlook :
      get_cached_price 10
        (research_card_market initialMarketAgentState 0 "LeBron James" 2003 "Topps" true
          (.ok [⟨500, true⟩])).state
        (buildSearchQuery "LeBron James" 2003 "Topps") =
      some { process_listings (buildSearchQuery "LeBron James" 2003 "Topps")
              [⟨500, true⟩] with from_cache := true, cached_at := some 0 } := by
    rw [h1]
    simp only [get_cached_price, assocSet_lookup]
    rw [if_pos (by norm_num [initialMarketAgentState])]
  have h2 := research_card_market_hit
    (research_card_market initialMarketAgentState 0 "LeBron James" 2003 "Topps" true
      (.ok [⟨500, true⟩])).state
    10 "LeBron James" 2003 "Topps" (.ok []) _ hlook
  intro h
  rw [h2, h1] at h
  have hca := congrArg ResearchResult.cached_at h
  simp only at hca
  exact Option.noConfusion hca

theorem process_listings_no_sold (q : String) (ls : List EBayListing)
    (h : ls.filter (fun l => l.sold) = []) :
    process_listings q ls = create_empty_response q := by
  unfold process_listings
  rw [h]
  rfl

/-- **C6** (amended): the fallback paths (breaker-open rejection, rate limit,
other exception) leave the price cache unchanged; a call that finds zero sold
listings returns the empty snapshot (zero counts — but carrying the error
string "No sales data available") and, unlike the claim states, that empty
response IS written to the cache, exactly like a non-empty success. -/
theorem c6_cache_write_policy :
    (∀ (st : MarketAgentState) (now : ℚ) (player : String) (year : ℤ)
        (manufacturer : String) (lf : ℚ) (fetch : FetchOutcome),
      get_cached_price now st (buildSearchQuery player year manufacturer) = none →
      st.circuit_breaker.state = .opened →
      st.circuit_breaker.last_failure = some lf →
      now - lf ≤ st.circuit_breaker.recovery_timeout →
      (research_card_market st now player year manufacturer true fetch).state = st ∧
      ∃ e, (research_card_market st now player year manufacturer true fetch).result =
        create_fallback_response (buildSearchQuery player year manufacturer) e) ∧
    (∀ (st : MarketAgentState) (now : ℚ) (player : String) (year : ℤ)
        (manufacturer : String) (msg : String) (fetch : FetchOutcome),
      fetch = .rateLimit msg ∨ fetch = .exc msg →
      get_cached_price now st (buildSearchQuery player year manufacturer) = none →
      st.circuit_breaker.state ≠ .opened →
      (research_card_market st now player year manufacturer true fetch).state.price_cache
          = st.price_cache ∧
      ∃ e, (research_card_market st now player year manufacturer true fetch).result =
        create_fallback_response (buildSearchQuery player year manufacturer) e) ∧
    (∀ (q : String) (ls : List EBayListing), ls.filter (fun l => l.sold) = [] →
      process_listings q ls = create_empty_response q ∧
      (create_empty_response q).error = some "No sales data available" ∧
      (create_empty_response q).market_analysis.sold_items.count = 0 ∧
      (create_empty_response q).market_analysis.sold_items.average_price = 0) ∧
    (∀ (st : MarketAgentState) (now : ℚ) (player : String) (year : ℤ)
        (manufacturer : String) (ls : List EBayListing),
      get_cached_price now st (buildSearchQuery player year manufacturer) = none →
      st.circuit_breaker.state ≠ .opened →
      (research_card_market st now player year manufacturer true
          (.ok ls)).state.price_cache =
        assocSet (buildSearchQuery player year manufacturer)
          { process_listings (buildSearchQuery player year manufacturer) ls with
              cached_at := some now }
          st.price_cache ∧
      (research_card_market st now player year manufacturer true (.ok ls)).result =
        process_listings (buildSearchQuery player year manufacturer) ls) := by
  refine ⟨?_, ?_, ?_, ?_⟩
  · intro st now player year manufacturer lf fetch hmiss hs hlf hle
    have hraise : aenter now st.circuit_breaker =
        .error ("Circuit breaker is open. Retry after " ++
          toString (roundHalfEven
            (st.circuit_breaker.recovery_timeout - (now - lf))) ++ "s") := by
      simp [aenter, hs, hlf, not_lt.2 hle]
    constructor
    · simp only [research_card_market, if_true]
      rw [hmiss]
      simp only [research_fetch, hraise]
    · refine ⟨"Circuit breaker is open. Retry after " ++
        toString (roundHalfEven
          (st.circuit_breaker.recovery_timeout - (now - lf))) ++ "s", ?_⟩
      simp only [research_card_market, if_true]
      rw [hmiss]
      simp only [research_fetch, hraise]
  · intro st now player year manufacturer msg fetch hf hmiss hb
    rcases hf with rfl | rfl
    · constructor
      · simp only [research_card_market, if_true]
        rw [hmiss]
        simp only [research_fetch, aenter_not_opened hb]
      · refine ⟨"Rate limit exceeded. Please try again later.", ?_⟩
        simp only [research_card_market, if_true]
        rw [hmiss]
        simp only [research_fetch, aenter_not_opened hb]
    · constructor
      · simp only [research_card_market, if_true]
        rw [hmiss]
        simp only [research_fetch, aenter_not_opened hb]
      · refine ⟨msg, ?_⟩
        simp only [research_card_market, if_true]
        rw [hmiss]
        simp only [research_fetch, aenter_not_opened hb]
  · intro q ls h
    exact ⟨process_listings_no_sold q ls h, rfl, rfl, rfl⟩
  · intro st now player year manufacturer ls hmiss hb
    rw [research_card_market_miss st now player year manufacturer ls hmiss hb]
    exact ⟨rfl, rfl⟩

theorem c6_witness :
    ((research_card_market ⟨[], ⟨5, 60, 5, some 4, .opened⟩, 900⟩ 10 "LeBron James"
        2003 "Topps" true (.exc "boom")).state =
      ⟨[], ⟨5, 60, 5, some 4, .opened⟩, 900⟩ ∧
      ∃ e, (research_card_market ⟨[], ⟨5, 60, 5, some 4, .opened⟩, 900⟩ 10
          "LeBron James" 2003 "Topps" true (.exc "boom")).result =
        create_fallback_response (buildSearchQuery "LeBron James" 2003 "Topps") e) ∧
    ((research_card_market initialMarketAgentState 0 "LeBron James" 2003 "Topps" true
        (.rateLimit "slow down")).state.price_cache =
      initialMarketAgentState.price_cache ∧
      ∃ e, (research_card_market initialMarketAgentState 0 "LeBron James" 2003 "Topps"
          true (.rateLimit "slow down")).result =
        create_fallback_response (buildSearchQuery "LeBron James" 2003 "Topps") e) ∧
    (process_listings "q" [⟨500, false⟩] = create_empty_response "q" ∧
      (create_empty_response "q").error = some "No sales data available" ∧
      (create_empty_response "q").market_analysis.sold_items.count = 0 ∧
      (create_empty_response "q").market_analysis.sold_items.average_price = 0) ∧
    ((research_card_market initialMarketAgentState 0 "LeBron James" 2003 "Topps" true
        (.ok [⟨500, true⟩])).state.price_cache =
      assocSet (buildSearchQuery "LeBron James" 2003 "Topps")
        { process_listings (buildSearchQuery "LeBron James" 2003 "Topps")
            [⟨500, true⟩] with cached_at := some 0 }
        initialMarketAgentState.price_cache ∧
      (research_card_market initialMarketAgentState 0 "LeBron James" 2003 "Topps" true
        (.ok [⟨500, true⟩])).result =
        process_listings (buildSearchQuery "LeBron James" 2003 "Topps") [⟨500, true⟩]) :=
  ⟨c6_cache_write_policy.1 ⟨[], ⟨5, 60, 5, some 4, .opened⟩, 900⟩ 10 "LeBron James"
      2003 "Topps" 4 (.exc "boom") rfl rfl rfl (by norm_num),
   c6_cache_write_policy.2.1 initialMarketAgentState 0 "LeBron James" 2003 "Topps"
      "slow down" (.rateLimit "slow down") (Or.inl rfl) rfl (by decide),
   c6_cache_write_policy.2.2.1 "q" [⟨500, false⟩] (by simp [List.filter]),
   c6_cache_write_policy.2.2.2 initialMarketAgentState 0 "LeBron James" 2003 "Topps"
      [⟨500, true⟩] rfl (by decide)⟩

/-- **C6 counterexample**: a `research_card_market` call that finds zero sold
listings does change the cache — the empty response (which moreover carries
the error string "No sales data available") is written under the query key,
while before the call the cache had no entry for it. -/
theorem c6_counterexample :
    (research_card_market initialMarketAgentState 0 "LeBron James" 2003 "Topps" true
        (.ok [])).state.price_cache.lookup
          (buildSearchQuery "LeBron James" 2003 "Topps") =
      some { create_empty_response (buildSearchQuery "LeBron James" 2003 "Topps") with
              cached_at := some 0 } ∧
    initialMarketAgentState.price_cache.lookup
        (buildSearchQuery "LeBron James" 2003 "Topps") = none ∧
    (create_empty_response (buildSearchQuery "LeBron James" 2003 "Topps")).error
      = some "No sales data available" := by
  refine ⟨?_, rfl, rfl⟩
  rw [research_card_market_miss initialMarketAgentState 0 "LeBron James" 2003 "Topps"
    [] rfl (by decide)]
  exact assocSet_lookup _ _ _

/-- **C7**: rate-limit errors, circuit-breaker rejections and any other fetch
exception never propagate: the call returns the documented fallback response
(zero counts, "Desconocida" liquidity, `from_cache = false`, the error string
embedded in the insight), and the rate-limit fallback carries the specific
"Rate limit exceeded. Please try again later." message. -/
theorem c7_failure_fallback :
    (∀ (q e : String),
      (create_fallback_response q e).market_analysis.sold_items.count = 0 ∧
      (create_fallback_response q e).market_analysis.sold_items.average_price = 0 ∧
      (create_fallback_response q e).market_analysis.liquidity = "Desconocida" ∧
      (create_fallback_response q e).from_cache = false ∧
      (create_fallback_response q e).market_analysis.market_insight =
        "Error al obtener datos: " ++ e ∧
      (create_fallback_response q e).error = some e) ∧
    (∀ (st : MarketAgentState) (now : ℚ) (player : String) (year : ℤ)
        (manufacturer msg : String),
      get_cached_price now st (buildSearchQuery player year manufacturer) = none →
      st.circuit_breaker.state ≠ .opened →
      (research_card_market st now player year manufacturer true
          (.rateLimit msg)).result =
        create_fallback_response (buildSearchQuery player year manufacturer)
          "Rate limit exceeded. Please try again later.") ∧
    (∀ (st : MarketAgentState) (now : ℚ) (player : String) (year : ℤ)
        (manufacturer msg : String),
      get_cached_price now st (buildSearchQuery player year manufacturer) = none →
      st.circuit_breaker.state ≠ .opened →
      (research_card_market st now player year manufacturer true (.exc msg)).result =
        create_fallback_response (buildSearchQuery player year manufacturer) msg) ∧
    (∀ (st : MarketAgentState) (now : ℚ) (player : String) (year : ℤ)
        (manufacturer : String) (lf : ℚ) (fetch : FetchOutcome),
      get_cached_price now st (buildSearchQuery player year manufacturer) = none →
      st.circuit_breaker.state = .opened →
      st.circuit_breaker.last_failure = some lf →
      now - lf ≤ st.circuit_breaker.recovery_timeout →
      (research_card_market st now player year manufacturer true fetch).result =
        create_fallback_response (buildSearchQuery player year manufacturer)
          ("Circuit breaker is open. Retry after " ++
            toString (roundHalfEven
              (st.circuit_breaker.recovery_timeout - (now - lf))) ++ "s")) := by
  refine ⟨?_, ?_, ?_, ?_⟩
  · intro q e
    exact ⟨rfl, rfl, rfl, rfl, rfl, rfl⟩
  · intro st now player year manufacturer msg hmiss hb
    simp only [research_card_market, if_true]
    rw [hmiss]
    simp only [research_fetch, aenter_not_opened hb]
  · intro st now player year manufacturer msg hmiss hb
    simp only [research_card_market, if_true]
    rw [hmiss]
    simp only [research_fetch, aenter_not_opened hb]
  · intro st now player year manufacturer lf fetch hmiss hs hlf hle
    have hraise : aenter now st.circuit_breaker =
        .error ("Circuit breaker is open. Retry after " ++
          toString (roundHalfEven
            (st.circuit_breaker.recovery_timeout - (now - lf))) ++ "s") := by
      simp [aenter, hs, hlf, not_lt.2 hle]
    simp only [research_card_market, if_true]
    rw [hmiss]
    simp only [research_fetch, hraise]

theorem c7_witness :
    ((create_fallback_response "q" "err").market_analysis.sold_items.count = 0 ∧
      (create_fallback_response "q" "err").market_analysis.sold_items.average_price = 0 ∧
      (create_fallback_response "q" "err").market_analysis.liquidity = "Desconocida" ∧
      (create_fallback_response "q" "err").from_cache = false ∧
      (create_fallback_response "q" "err").market_analysis.market_insight =
        "Error al obtener datos: " ++ "err" ∧
      (create_fallback_response "q" "err").error = some "err") ∧
    ((research_card_market initialMarketAgentState 0 "LeBron James" 2003 "Topps" true
        (.rateLimit "429")).result =
      create_fallback_response (buildSearchQuery "LeBron James" 2003 "Topps")
        "Rate limit exceeded. Please try again later.") ∧
    ((research_card_market initialMarketAgentState 0 "LeBron James" 2003 "Topps" true
        (.exc "boom")).result =
      create_fallback_response (buildSearchQuery "LeBron James" 2003 "Topps") "boom") ∧
    ((research_card_market ⟨[], ⟨5, 60, 5, some 4, .opened⟩, 900⟩ 10 "LeBron James"
        2003 "Topps" true (.ok [])).result =
      create_fallback_response (buildSearchQuery "LeBron James" 2003 "Topps")
        ("Circuit breaker is open. Retry after " ++
          toString (roundHalfEven
            ((⟨5, 60, 5, some 4, .opened⟩ : CircuitBreaker).recovery_timeout -
              ((10 : ℚ) - 4))) ++ "s")) :=
  ⟨c7_failure_fallback.1 "q" "err",
   c7_failure_fallback.2.1 initialMarketAgentState 0 "LeBron James" 2003 "Topps"
      "429" rfl (by decide),
   c7_failure_fallback.2.2.1 initialMarketAgentState 0 "LeBron James" 2003 "Topps"
      "boom" rfl (by decide),
   c7_failure_fallback.2.2.2 ⟨[], ⟨5, 60, 5, some 4, .opened⟩, 900⟩ 10 "LeBron James"
      2003 "Topps" 4 (.ok []) rfl rfl rfl (by norm_num)⟩

/-! ## Player Analysis Agent (src/agents/player_analysis_agent.py) -/

/-- The numeric stats dict returned by the per-sport stats tools; every stat
is read with `.get(key, 0)`, modelled by a 0 default. -/
structure StatsInput where
  success : Bool
  points_per_game : ℚ := 0
  assists_per_game : ℚ := 0
  rebounds_per_game : ℚ := 0
  goals : ℚ := 0
  batting_avg : ℚ := 0
  home_runs : ℚ := 0
  passing_yards : ℚ := 0
  passing_touchdowns : ℚ := 0
  rushing_yards : ℚ := 0
  rushing_touchdowns : ℚ := 0
  receiving_yards : ℚ := 0
  receiving_touchdowns : ℚ := 0
  receptions : ℚ := 0
  interceptions : ℚ := 0
  assists : ℚ := 0
  matches_played : ℚ := 0
  goals_per_game : ℚ := 0
  shots_on_target : ℚ := 0
deriving DecidableEq

/-- The supported sports. -/
inductive Sport where
  | NBA
  | NHL
  | MLB
  | NFL
  | Soccer
  | other
deriving DecidableEq

/-- The sport-specific bonus block of `_analyze_stats` (everything added to
the base score of 50 before the performance-text adjustment). -/
def sport_bonus (stats : StatsInput) (sport : Sport) : ℤ :=
  match sport with
  | .NBA =>
    (if 25 ≤ stats.points_per_game then 25
     else if 20 ≤ stats.points_per_game then 20
     else if 15 ≤ stats.points_per_game then 15 else 0) +
    (if 7 ≤ stats.assists_per_game then 10
     else if 5 ≤ stats.assists_per_game then 5 else 0) +
    (if 8 ≤ stats.rebounds_per_game then 10
     else if 5 ≤ stats.rebounds_per_game then 5 else 0)
  | .NHL =>
    (if 13/10 ≤ stats.points_per_game then 30
     else if 1 ≤ stats.points_per_game then 25
     else if 8/10 ≤ stats.points_per_game then 20 else 0) +
    (if 40 ≤ stats.goals then 15 else if 30 ≤ stats.goals then 10 else 0)
  | .MLB =>
    (if 3/10 ≤ stats.batting_avg then 25
     else if 28/100 ≤ stats.batting_avg then 20
     else if 26/100 ≤ stats.batting_avg then 15 else 0) +
    (if 30 ≤ stats.home_runs then 15 else if 20 ≤ stats.home_runs then 10 else 0)
  | .NFL =>
    if 500 < stats.passing_yards then
      (if 4500 ≤ stats.passing_yards then 25
       else if 4000 ≤ stats.passing_yards then 20
       else if 3500 ≤ stats.passing_yards then 15 else 0) +
      (if 35 ≤ stats.passing_touchdowns then 15
       else if 25 ≤ stats.passing_touchdowns then 10 else 0) +
      (if stats.interceptions ≤ 10 then 5
       else if 15 ≤ stats.interceptions then -5 else 0)
    else if 400 < stats.rushing_yards then
      (if 1400 ≤ stats.rushing_yards then 25
       else if 1100 ≤ stats.rushing_yards then 20
       else if 900 ≤ stats.rushing_yards then 15 else 0) +
      (if 12 ≤ stats.rushing_touchdowns + stats.receiving_touchdowns then 15
       else if 8 ≤ stats.rushing_touchdowns + stats.receiving_touchdowns then 10
       else 0) +
      (if 50 ≤ stats.receptions then 5 else 0)
    else if 400 < stats.receiving_yards then
      (if 1400 ≤ stats.receiving_yards then 25
       else if 1100 ≤ stats.receiving_yards then 20
       else if 900 ≤ stats.receiving_yards then 15 else 0) +
      (if 100 ≤ stats.receptions then 10
       else if 80 ≤ stats.receptions then 5 else 0) +
      (if 10 ≤ stats.receiving_touchdowns then 10
       else if 7 ≤ stats.receiving_touchdowns then 5 else 0)
    else
      (if 2000 < stats.passing_yards ∨ 600 < stats.rushing_yards ∨
          600 < stats.receiving_yards then 10 else 0)
  | .Soccer =>
    (if 20 ≤ stats.goals then 25
     else if 15 ≤ stats.goals then 20
     else if 10 ≤ stats.goals then 15 else 0) +
    (if 15 ≤ stats.assists then 15
     else if 10 ≤ stats.assists then 10
     else if 5 ≤ stats.assists then 5 else 0) +
    (if 7/10 ≤ stats.goals_per_game then 15
     else if 1/2 ≤ stats.goals_per_game then 10 else 0) +
    (if 30 ≤ stats.shots_on_target then 5 else 0) +
    (if 30 ≤ stats.matches_played then 5 else 0)
  | .other => 0

/-- Python `word in text` (substring containment). -/
def containsSub (t w : String) : Bool := 1 < (t.splitOn w).length

/-- `any(word in perf_lower for word in words)`. -/
def hasAnyWord (t : String) (ws : List String) : Bool :=
  ws.any (fun w => containsSub t w)

/-- The performance-text adjustment block: +10/Improving on positive
keywords, −15/Declining on injury keywords, else Stable. -/
def perf_adjust (score : ℤ) (performance_text : Option String) : ℤ × String :=
  match performance_text with
  | some t =>
    let tl := t.toLower
    if hasAnyWord tl ["excelente", "excellent", "hot", "racha"] then
      (score + 10, "Improving")
    else if hasAnyWord tl ["lesionado", "injured"] then
      (score - 15, "Declining")
    else (score, "Stable")
  | none => (score, "Stable")

/-- The rating band chain of `_analyze_stats` (applied after clamping). -/
def ratingOf (score : ℤ) : String :=
  if 85 ≤ score then "Elite"
  else if 75 ≤ score then "Excellent"
  else if 65 ≤ score then "Good"
  else if 50 ≤ score then "Average"
  else "Below Average"

/-- `PlayerAnalysisAgent._analyze_stats`: returns (score, trend, rating).
When stats retrieval failed, the code returns the hard-coded fallback
`(75, "Stable", "Good")` without going through the rating bands. -/
def analyze_stats (stats : StatsInput) (sport : Sport)
    (performance_text : Option String) : ℤ × String × String :=
  if stats.success then
    let adj := perf_adjust (50 + sport_bonus stats sport) performance_text
    let score := max 0 (min 100 adj.1)
    (score, adj.2, ratingOf score)
  else (75, "Stable", "Good")

/-- **C8** (amended): the overall score is always an integer in [0, 100] for
every stats input, sport and performance text; on the successful-stats path
the rating label follows the bands (Elite ≥85, Excellent ≥75, Good ≥65,
Average ≥50, else Below Average) applied to the clamped score, but on failed
stats retrieval the code returns score 75 with the hard-coded rating "Good",
which does not follow the bands. -/
theorem c8_score_clamping (stats : StatsInput) (sport : Sport)
    (performance_text : Option String) :
    0 ≤ (analyze_stats stats sport performance_text).1 ∧
    (analyze_stats stats sport performance_text).1 ≤ 100 ∧
    (stats.success = true →
      (analyze_stats stats sport performance_text).2.2 =
        ratingOf (analyze_stats stats sport performance_text).1) ∧
    (stats.success = false →
      (analyze_stats stats sport performance_text).1 = 75 ∧
      (analyze_stats stats sport performance_text).2.2 = "Good") := by
  by_cases hsucc : stats.success = true
  · have hres : analyze_stats stats sport performance_text =
        (max 0 (min 100 (perf_adjust (50 + sport_bonus stats sport) performance_text).1),
          (perf_adjust (50 + sport_bonus stats sport) performance_text).2,
          ratingOf (max 0 (min 100
            (perf_adjust (50 + sport_bonus stats sport) performance_text).1))) := by
      unfold analyze_stats
      rw [if_pos hsucc]
    rw [hres]
    refine ⟨le_max_left 0 _, max_le (by norm_num) (min_le_left 100 _), fun _ => rfl, ?_⟩
    intro hcontra
    rw [hsucc] at hcontra
    exact Bool.noConfusion hcontra
  · have hf : stats.success = false := by
      revert hsucc; cases stats.success <;> simp
    have hres : analyze_stats stats sport performance_text = (75, "Stable", "Good") := by
      unfold analyze_stats
      rw [hf]
      rfl
    rw [hres]
    refine ⟨by norm_num, by norm_num, ?_, fun _ => ⟨rfl, rfl⟩⟩
    intro hcontra
    rw [hf] at hcontra
    exact Bool.noConfusion hcontra

theorem c8_witness :
    (0 ≤ (analyze_stats { success := true, points_per_game := 1000000 } .NBA
        (some "excelente racha")).1 ∧
      (analyze_stats { success := true, points_per_game := 1000000 } .NBA
        (some "excelente racha")).1 ≤ 100) ∧
    ((analyze_stats { success := true, points_per_game := 1000000 } .NBA
        (some "excelente racha")).2.2 =
      ratingOf (analyze_stats { success := true, points_per_game := 1000000 } .NBA
        (some "excelente racha")).1) ∧
    ((analyze_stats { success := false } .NBA none).1 = 75 ∧
      (analyze_stats { success := false } .NBA none).2.2 = "Good") :=
  ⟨⟨(c8_score_clamping { success := true, points_per_game := 1000000 } .NBA
        (some "excelente racha")).1,
    (c8_score_clamping { success := true, points_per_game := 1000000 } .NBA
        (some "excelente racha")).2.1⟩,
   (c8_score_clamping { success := true, points_per_game := 1000000 } .NBA
        (some "excelente racha")).2.2.1 rfl,
   (c8_score_clamping { success := false } .NBA none).2.2.2 rfl⟩

/-- **C8 counterexample**: when stats retrieval fails, `_analyze_stats`
returns score 75 with rating "Good", but the band for 75 is "Excellent" —
the rating is not derived from the score bands as the claim states. -/
theorem c8_counterexample :
    (analyze_stats { success := false } .NBA none).1 = 75 ∧
    (analyze_stats { success := false } .NBA none).2.2 = "Good" ∧
    ratingOf 75 = "Excellent" ∧
    (analyze_stats { success := false } .NBA none).2.2 ≠
      ratingOf (analyze_stats { success := false } .NBA none).1 := by
  refine ⟨rfl, rfl, by norm_num [ratingOf], ?_⟩
  have h1 : (analyze_stats { success := false } .NBA none).2.2 = "Good" := rfl
  have h2 : ratingOf (analyze_stats { success := false } .NBA none).1 = "Excellent" := by
    norm_num [ratingOf, analyze_stats]
  rw [h1, h2]
  simp

/-! ## Supervisor Agent (src/agents/supervisor_agent.py) -/

/-- A market research result viewed as the `market_analysis` argument of the
Strategy Agent: every research dict carries
`market_analysis["sold_items"]["average_price"]`. -/
def toMarketInput (r : ResearchResult) : MarketAnalysisInput :=
  ⟨some ⟨some ⟨some r.market_analysis.sold_items.average_price⟩⟩⟩

/-- Top-level result of `analyze_investment_opportunity`: either a failure
object (`success = false` with an error) or a consolidated recommendation. -/
structure SupervisorResult where
  success : Bool
  error : Option String
  recommendation : Option Strategy
deriving DecidableEq

/-- Outcome of the `asyncio.gather` over the market and player tasks: both
results, or the exception caught at the gather boundary. -/
inductive GatherOutcome where
  | ok (market : ResearchResult) (player : PlayerAnalysisInput)
  | exc (msg : String)
deriving DecidableEq

/-- `SupervisorAgent.analyze_investment_opportunity` after the two analysis
tasks settle: gather failures and the Strategy Agent's `strategy: null`
sentinel both become top-level failure objects. -/
def analyze_investment_opportunity (g : GatherOutcome) (player_name : String) :
    SupervisorResult :=
  match g with
  | .exc e => ⟨false, some ("Analysis failed: " ++ e), none⟩
  | .ok m p =>
    let ts := generate_trading_strategy defaultStrategyAgent (toMarketInput m) p
      player_name
    match ts.strategy with
    | none => ⟨false, some (ts.error.getD "Strategy generation failed"), none⟩
    | some s => ⟨true, none, some s⟩

/-- **C9**: whenever the Strategy Agent returns its error sentinel
(`strategy = none`), the Supervisor returns a top-level failure object with
`success = false` and an error message, never a recommendation built from
the sentinel. -/
theorem c9_supervisor_propagates_error (m : ResearchResult)
    (p : PlayerAnalysisInput) (name : String)
    (h : (generate_trading_strategy defaultStrategyAgent (toMarketInput m) p
      name).strategy = none) :
    (analyze_investment_opportunity (.ok m p) name).success = false ∧
    (analyze_investment_opportunity (.ok m p) name).error.isSome = true ∧
    (analyze_investment_opportunity (.ok m p) name).recommendation = none := by
  simp only [analyze_investment_opportunity]
  rw [h]
  exact ⟨rfl, rfl, rfl⟩

theorem c9_witness :
    (analyze_investment_opportunity
        (.ok (create_empty_response "q") (mkPlayerInput 90)) "P").success = false ∧
    (analyze_investment_opportunity
        (.ok (create_empty_response "q") (mkPlayerInput 90)) "P").error.isSome = true ∧
    (analyze_investment_opportunity
        (.ok (create_empty_response "q") (mkPlayerInput 90)) "P").recommendation
      = none :=
  c9_supervisor_propagates_error (create_empty_response "q") (mkPlayerInput 90) "P"
    (by norm_num [generate_trading_strategy, generate_trading_strategy_body,
      toMarketInput, create_empty_response, get_average_price, get_player_score,
      mkPlayerInput, handle_strategy_exc, create_error_response])

end SportsCard
